import Mathlib

set_option maxRecDepth 10000

/-!
Shallow embedding of the function-artifact deployment pipeline of the
`Function` component (src/unnamed/part_000): handler wrapping, deterministic
packaging, content hashing, artifact publication, placeholder resource
creation and the code-update step, together with the dataflow dependency
graph induced by the component's `Output.apply` / `all([...])` calls.
-/

namespace Ion

/-! ### Path handling (`path.posix.parse`, `path.join`) -/

/-- Split a character list at the LAST occurrence of `c`, returning the
characters strictly before and strictly after it; `none` when `c` is absent. -/
def splitAtLast (c : Char) : List Char → Option (List Char × List Char)
  | [] => none
  | x :: xs =>
    match splitAtLast c xs with
    | some (pre, post) => some (x :: pre, post)
    | none => if x = c then some ([], xs) else none

structure ParsedPath where
  dir : String
  name : String
  ext : String
deriving DecidableEq, Repr

/-- Embedding of Node's `path.posix.parse`, restricted to the fields the
component reads (`dir`, `name`, `ext`): `dir` is everything before the last
slash (with the root special case), `ext` is the suffix of the basename from
its last dot — unless that dot is the basename's first character (dotfile),
in which case `ext` is empty — and `name` is the basename minus `ext`. -/
def posixParse (p : String) : ParsedPath :=
  let cs := p.toList
  let dirBase : List Char × List Char :=
    match splitAtLast '/' cs with
    | some (d, b) => (d, b)
    | none => ([], cs)
  let dir := dirBase.1
  let base := dirBase.2
  let nameExt : List Char × List Char :=
    match base with
    | [] => ([], [])
    | b0 :: rest =>
      match splitAtLast '.' rest with
      | some (n, e) => (b0 :: n, '.' :: e)
      | none => (b0 :: rest, [])
  let dirStr := if dir = [] ∧ cs.head? = some '/' then "/" else String.mk dir
  ⟨dirStr, String.mk nameExt.1, String.mk nameExt.2⟩

/-- Embedding of `ext.replace(/^\./, "")`: drop one leading dot. -/
def stripLeadingDot (s : String) : String :=
  match s.toList with
  | '.' :: rest => String.mk rest
  | _ => s

/-- Embedding of `path.join` / `path.posix.join` on the slash-free-suffix
segments the component passes (no `.`/`..` normalization is ever needed for
them): empty segments are skipped, the rest joined with a slash. -/
def pathJoin (parts : List String) : String :=
  String.intercalate "/" (parts.filter (fun s => ¬ s = ""))

/-! ### HandlerWrapper (`wrapHandler`, lines 564-602) -/

def newHandlerName : String := "server-index"

def newHandlerFunction : String := "handler"

/-- The generated line that dynamically imports the original module and
destructures its export, exactly as the template string in the source. -/
def awaitImportLine (oldHandlerFunction oldHandlerName : String) : String :=
  "  const \x7b " ++ oldHandlerFunction ++ ": rawHandler\x7d = await import(\"./" ++ oldHandlerName ++ ".mjs\");"

/-- Lines of the generated module in the `streaming` branch of the source.
Note the binding snippet is not a parameter: the streaming template never
mentions it. -/
def streamingLines (oldHandlerFunction oldHandlerName : String) (injections : List String) : List String :=
  ("export const " ++ newHandlerFunction ++ " = awslambda.streamifyResponse(async (event, context) => \x7b")
    :: injections
    ++ [awaitImportLine oldHandlerFunction oldHandlerName,
        "  return rawHandler(event, context);",
        "\x7d);"]

/-- Lines of the generated module in the non-streaming branch of the source:
the binding snippet (via `bindInjection ?? ""`) as a top-level statement,
then the exported async function whose body is the injections in order,
the dynamic import, and the forwarding call. -/
def nonStreamingLines (oldHandlerFunction oldHandlerName : String) (injections : List String) (bindInjection : Option String) : List String :=
  ((bindInjection.getD "") ++ ";")
    :: ("export const " ++ newHandlerFunction ++ " = async (event, context) => \x7b")
    :: injections
    ++ [awaitImportLine oldHandlerFunction oldHandlerName,
        "  return rawHandler(event, context);",
        "\x7d;"]

/-- JavaScript falsiness of the `bindInjection` value as used in the guard
`!bindInjection`: absent (`undefined`) and the empty string are falsy. -/
def bindFalsy : Option String → Bool
  | none => true
  | some s => s == ""

/-- Result of `wrapHandler`: the list of `(path, content)` files written to
disk, and the handler reference returned to the caller. -/
structure WrapResult where
  files : List (String × String)
  ret : String
deriving DecidableEq, Repr

/-- Embedding of `wrapHandler` (source lines 564-602).  If the injection list
is empty and the binding snippet is falsy, the original handler is returned
and nothing is written.  Otherwise the handler path is parsed, a module named
`server-index.mjs` with fixed export `handler` is written next to it inside
the bundle, and the new handler reference `<dir>/server-index.handler` is
returned.  The source has no failure path here: `path.posix.parse` never
throws. -/
def wrapHandler (handler bundle : String) (streaming : Bool) (injections : List String) (bindInjection : Option String) : WrapResult :=
  if injections.length = 0 ∧ bindFalsy bindInjection then ⟨[], handler⟩
  else
    let parsed := posixParse handler
    let oldHandlerName := parsed.name
    let oldHandlerFunction := stripLeadingDot parsed.ext
    let content := String.intercalate "\n"
      (if streaming then streamingLines oldHandlerFunction oldHandlerName injections
       else nonStreamingLines oldHandlerFunction oldHandlerName injections bindInjection)
    ⟨[(pathJoin [bundle, parsed.dir, newHandlerName ++ ".mjs"], content)],
     pathJoin [parsed.dir, newHandlerName ++ "." ++ newHandlerFunction]⟩

/-! ### DeterministicPackager (`zipBundleFolder`, lines 620-656) and
ContentAddresser (`calculateHash`, lines 516-522) -/

/-- One file of the bundle directory as the archiver's glob scan sees it:
a relative path and its bytes. -/
structure FileEntry where
  relPath : String
  data : List Nat
deriving DecidableEq, Repr

/-- One entry of the produced zip archive: path, bytes, and the entry
modification time recorded in the archive. -/
structure ZipEntry where
  path : String
  data : List Nat
  mtime : Nat
deriving DecidableEq, Repr

/-- Model of `archive.glob(pattern, opts, data)`: every matched file becomes
an archive entry, in the order the glob scan yields them (the library does
not sort; the order is the filesystem iteration order of `listing`), stamped
with the caller-supplied `date`. -/
def archiverGlob (listing : List FileEntry) (date : Nat) : List ZipEntry :=
  listing.map (fun e => ⟨e.relPath, e.data, date⟩)

/-- `new Date(0)`: the fixed epoch instant passed to the archiver. -/
def epochDate : Nat := 0

/-- Embedding of `zipBundleFolder` (source lines 620-656).  `listing` is the
bundle directory's content in the filesystem iteration order of the glob
scan; `now` is the wall clock at run time, which the source never consults:
the entry date passed to the archiver is `new Date(0)`, not `now`. -/
def zipBundleFolder (listing : List FileEntry) (_now : Nat) : List ZipEntry :=
  archiverGlob listing epochDate

/-- Injective byte serialization of one archive entry (path length, path
bytes, recorded mtime, data length, data bytes). -/
def encodeEntry (e : ZipEntry) : List Nat :=
  e.path.length :: (e.path.toList.map Char.toNat) ++ e.mtime :: e.data.length :: e.data

/-- The archive file's bytes: entries serialized in archive order. -/
def zipSerialize (entries : List ZipEntry) : List Nat :=
  (entries.map encodeEntry).flatten

/-- Embedding of `calculateHash` (source lines 516-522): the digest is the
hash of the full archive bytes.  The SHA-256 primitive itself is the
`crypto` library, external to the repository, so it is passed in as a
function; every property proved below holds for all of them. -/
def calculateHash (sha256hex : List Nat → String) (zipBytes : List Nat) : String :=
  sha256hex zipBytes

/-! ### ArtifactPublisher (`createBucketObject`, lines 658-668) -/

structure BucketObjectArgs where
  key : String
  bucket : String
  sourcePath : String
deriving DecidableEq, Repr

/-- Pulumi resource options, restricted to the one the component sets on the
bucket object. -/
structure ResourceOpts where
  retainOnDelete : Bool
deriving DecidableEq, Repr

/-- Embedding of `createBucketObject` (source lines 658-668): the object key
is the interpolation `assets/<name>-code-<bundleHash>.zip`, the bucket is the
bootstrap bucket of the region (passed in resolved), the source is the zip
path, and the resource options set `retainOnDelete: true`. -/
def createBucketObject (name bundleHash bucket zipPath : String) : BucketObjectArgs × ResourceOpts :=
  (⟨"assets/" ++ name ++ "-code-" ++ bundleHash ++ ".zip", bucket, zipPath⟩, ⟨true⟩)

/-! ### PlaceholderResourceFactory (`createFunction`, lines 670-691) and
CodeReconciler step (`updateFunctionCode`, lines 726-741) -/

/-- The inline no-op placeholder body: `new asset.StringAsset("exports.handler = () => \x7b\x7d")`. -/
def placeholderCode : String := "exports.handler = () => \x7b\x7d"

structure LambdaFunctionArgs where
  description : Option String
  code : String
  handler : String
  role : String
  runtime : String
  timeout : Nat
  memorySize : Nat
  environment : List (String × String)
  architectures : List String
deriving DecidableEq, Repr

/-- Embedding of `createFunction` (source lines 670-691): the creation call's
arguments.  The `code` field is always the inline placeholder; the published
artifact (bucket object key/location, digest, zip path) is not among the
inputs at all. -/
def createFunction (description : Option String) (newHandler roleArn runtime : String)
    (timeoutSeconds memoryMBs : Nat) (environment : List (String × String))
    (architectures : List String) : LambdaFunctionArgs :=
  ⟨description, placeholderCode, newHandler, roleArn, runtime, timeoutSeconds, memoryMBs,
   environment, architectures⟩

structure FunctionCodeUpdaterArgs where
  functionName : String
  s3Bucket : String
  s3Key : String
  functionLastModified : String
  region : String
deriving DecidableEq, Repr

/-- Embedding of `updateFunctionCode` (source lines 726-741): the
`FunctionCodeUpdater` is constructed from the created function's name and
initial lastModified marker and from the published bucket object's bucket and
key. -/
def updateFunctionCode (fnRawName fnRawLastModified fileBucket fileKey region : String) : FunctionCodeUpdaterArgs :=
  ⟨fnRawName, fileBucket, fileKey, fnRawLastModified, region⟩

/-! ### The dataflow dependency graph of the constructor (lines 410-441) -/

/-- The pipeline values of the constructor.  An edge `a → b` exists when the
source computes `a` by an `apply`/`all` whose inputs include `b`. -/
inductive PNode where
  | handler | bundle | streaming | injections | bindInjection | region
  | runtime | timeout | memory | environment | architectures
  | newHandler | role | zipPath | bundleHash | file | fnRaw | fn
deriving DecidableEq, Repr

/-- Direct dependencies, read off the source:
`wrapHandler` is `all([handler, bundle, streaming, injections, bindInjection]).apply`;
`zipBundleFolder` is `bundle.apply` (only);
`calculateHash` is `zipPath.apply`;
`createBucketObject` uses `bundleHash` (key), `region` (bucket), `zipPath` (source);
`createFunction` uses `newHandler`, `role.arn` and the normalized settings;
`updateFunctionCode` is `output([fnRaw]).apply` and reads `file` and `region`. -/
def directDeps : PNode → List PNode
  | .newHandler => [.handler, .bundle, .streaming, .injections, .bindInjection]
  | .zipPath => [.bundle]
  | .bundleHash => [.zipPath]
  | .file => [.bundleHash, .region, .zipPath]
  | .fnRaw => [.newHandler, .role, .runtime, .timeout, .memory, .environment, .architectures]
  | .fn => [.fnRaw, .file, .region]
  | _ => []

def dependsOnFuel : Nat → PNode → PNode → Bool
  | 0, _, _ => false
  | n + 1, a, b =>
    (directDeps a).contains b || (directDeps a).any (fun c => dependsOnFuel n c b)

/-- `dependsOn a b`: the value `a` transitively depends on the value `b`, so
`b` must have resolved before `a` is computed.  Fuel 18 exceeds the number of
nodes, so this is full reachability. -/
def dependsOn (a b : PNode) : Bool := dependsOnFuel 18 a b

/-- A two-element bundle listing in one filesystem iteration order. -/
def listA : List FileEntry := [⟨"a.js", [1]⟩, ⟨"b.js", [2]⟩]

/-- The same file set as `listA`, iterated in the opposite order. -/
def listB : List FileEntry := [⟨"b.js", [2]⟩, ⟨"a.js", [1]⟩]

/-! ### Theorems -/

/-- Unfolding lemma for `wrapHandler` in the case where wrapping occurs. -/
lemma wrapHandler_wraps (handler bundle : String) (streaming : Bool)
    (injections : List String) (bindInjection : Option String)
    (h : ¬ (injections.length = 0 ∧ bindFalsy bindInjection)) :
    wrapHandler handler bundle streaming injections bindInjection =
      ⟨[(pathJoin [bundle, (posixParse handler).dir, newHandlerName ++ ".mjs"],
         String.intercalate "\n"
           (if streaming then
              streamingLines (stripLeadingDot (posixParse handler).ext)
                (posixParse handler).name injections
            else
              nonStreamingLines (stripLeadingDot (posixParse handler).ext)
                (posixParse handler).name injections bindInjection))],
       pathJoin [(posixParse handler).dir, newHandlerName ++ "." ++ newHandlerFunction]⟩ := by
  unfold wrapHandler
  rw [if_neg h]

/-- C2: with an empty injection list and no binding snippet, `wrapHandler`
returns the original handler path exactly unchanged and writes no file. -/
theorem wrapHandler_noop_when_empty (handler bundle : String) (streaming : Bool) :
    wrapHandler handler bundle streaming [] none = ⟨[], handler⟩ := rfl

/-- C3: for handler `src/index.handler`, injections `[globalThis.x=1]`,
non-streaming and no binding snippet, `wrapHandler` writes (inside the bundle,
next to the handler) a module whose export is the fixed constant `handler`,
whose body sets `globalThis.x=1` and then dynamically imports the original
module and forwards the invocation to its `handler` export, and returns the
new handler reference `src/server-index.handler`; the generated module name
`server-index` and export name `handler` are fixed constants. -/
theorem wrapHandler_scenario_src_index (bundle : String) :
    wrapHandler "src/index.handler" bundle false ["globalThis.x=1"] none =
      ⟨[(pathJoin [bundle, "src", newHandlerName ++ ".mjs"],
         ";\nexport const handler = async (event, context) => \x7b\nglobalThis.x=1\n  const \x7b handler: rawHandler\x7d = await import(\"./index.mjs\");\n  return rawHandler(event, context);\n\x7d;")],
       "src/server-index.handler"⟩
    ∧ newHandlerName = "server-index" ∧ newHandlerFunction = "handler" :=
  ⟨rfl, rfl, rfl⟩

/-- Cons form of `nonStreamingLines`, for positional reasoning. -/
lemma nonStreamingLines_eq (oldFn oldName : String) (injections : List String)
    (bindInjection : Option String) :
    nonStreamingLines oldFn oldName injections bindInjection =
      ((bindInjection.getD "") ++ ";")
        :: ("export const " ++ newHandlerFunction ++ " = async (event, context) => \x7b")
        :: (injections ++ [awaitImportLine oldFn oldName,
                           "  return rawHandler(event, context);", "\x7d;"]) := rfl

/-- Indexing past the first two elements of a list. -/
lemma getElem?_cons_cons {α : Type} (a b : α) (l : List α) (k : Nat) :
    (a :: b :: l)[k + 2]? = l[k]? := by
  have h1 : k + 2 = (k + 1) + 1 := rfl
  rw [h1, List.getElem?_cons_succ, List.getElem?_cons_succ]

/-- C4: in the non-streaming generated module, the binding snippet (defaulting
to empty) is the first line, a top-level statement; the injection snippets are
the lines at positions `2 + k`, exactly in the order supplied, inside the
exported async function; the dynamic import of the original module is the line
strictly after all injections (position `injections.length + 2`); and
`wrapHandler` writes exactly this module when not streaming. -/
theorem nonStreaming_order (oldFn oldName : String) (injections : List String)
    (bindInjection : Option String) (h : injections ≠ []) :
    (nonStreamingLines oldFn oldName injections bindInjection).head? =
      some ((bindInjection.getD "") ++ ";")
    ∧ (∀ k, k < injections.length →
        (nonStreamingLines oldFn oldName injections bindInjection)[k + 2]? = injections[k]?)
    ∧ (nonStreamingLines oldFn oldName injections bindInjection)[injections.length + 2]? =
        some (awaitImportLine oldFn oldName)
    ∧ ∀ handler bundle,
        (wrapHandler handler bundle false injections bindInjection).files =
          [(pathJoin [bundle, (posixParse handler).dir, newHandlerName ++ ".mjs"],
            String.intercalate "\n"
              (nonStreamingLines (stripLeadingDot (posixParse handler).ext)
                (posixParse handler).name injections bindInjection))] := by
  refine ⟨rfl, ?_, ?_, ?_⟩
  · intro k hk
    rw [nonStreamingLines_eq, getElem?_cons_cons]
    exact List.getElem?_append_left hk
  · rw [nonStreamingLines_eq, getElem?_cons_cons,
      List.getElem?_append_right (Nat.le_refl _), Nat.sub_self]
    rfl
  · intro handler bundle
    rw [wrapHandler_wraps _ _ _ _ _ (fun hc => h (List.length_eq_zero.mp hc.1))]
    rfl

/-- Witness for C4: the guarantees of `nonStreaming_order` at a concrete
input with two injections and a binding snippet. -/
theorem nonStreaming_order_witness :
    (nonStreamingLines "handler" "index" ["a", "b"] (some "globalThis.s=1"))[0 + 2]? = some "a"
    ∧ (nonStreamingLines "handler" "index" ["a", "b"] (some "globalThis.s=1"))[1 + 2]? = some "b"
    ∧ (nonStreamingLines "handler" "index" ["a", "b"] (some "globalThis.s=1"))[List.length ["a", "b"] + 2]? =
        some (awaitImportLine "handler" "index")
    ∧ (nonStreamingLines "handler" "index" ["a", "b"] (some "globalThis.s=1")).head? =
        some ("globalThis.s=1" ++ ";") := by
  have H := nonStreaming_order "handler" "index" ["a", "b"] (some "globalThis.s=1") (by decide)
  exact ⟨H.2.1 0 (by decide), H.2.1 1 (by decide), H.2.2.1, H.1⟩

/-- C5 counterexample: on the separator-less handler reference `src/index`
(with a nonempty injection list so that wrapping runs), `wrapHandler` does
NOT report any error: `path.posix.parse` yields an empty extension, the
export name parses as the empty string, a wrapper module destructuring the
empty-named export is still written, and the new handler reference is
returned — the failure is deferred to runtime, contrary to the claim that a
configuration error is reported immediately. -/
theorem malformed_handler_no_error :
    wrapHandler "src/index" ".out" false ["globalThis.x=1"] none =
      ⟨[(".out/src/server-index.mjs",
         ";\nexport const handler = async (event, context) => \x7b\nglobalThis.x=1\n  const \x7b : rawHandler\x7d = await import(\"./index.mjs\");\n  return rawHandler(event, context);\n\x7d;")],
       "src/server-index.handler"⟩
    ∧ stripLeadingDot (posixParse "src/index").ext = "" := by decide

/-- C5 amended: a handler reference lacking the path-and-symbol separator is
not rejected; `wrapHandler` proceeds with an empty parsed export name, writes
the wrapper file, and returns the new handler reference. -/
theorem malformed_handler_proceeds (bundle : String) (injections : List String)
    (h : injections ≠ []) :
    (wrapHandler "src/index" bundle false injections none).files.length = 1
    ∧ (wrapHandler "src/index" bundle false injections none).ret = "src/server-index.handler"
    ∧ stripLeadingDot (posixParse "src/index").ext = "" := by
  rw [wrapHandler_wraps _ _ _ _ _ (fun hc => h (List.length_eq_zero.mp hc.1))]
  exact ⟨rfl, rfl, rfl⟩

/-- Witness for C5 amended at a concrete bundle and injection list. -/
theorem malformed_handler_proceeds_witness :
    (wrapHandler "src/index" ".out" false ["globalThis.x=1"] none).files.length = 1
    ∧ (wrapHandler "src/index" ".out" false ["globalThis.x=1"] none).ret = "src/server-index.handler"
    ∧ stripLeadingDot (posixParse "src/index").ext = "" :=
  malformed_handler_proceeds ".out" ["globalThis.x=1"] (by decide)

/-- C10: with streaming on and a (non-falsy) binding snippet present, even
with an empty injection list, wrapping still occurs — one wrapper file is
written and the new fixed handler reference returned — but the generated
module is the streaming template, which takes no binding argument at all:
the result is identical for any two binding snippets, so the binding is
silently dropped. -/
theorem streaming_drops_binding (handler bundle : String) (injections : List String)
    (b b' : String) (hb : b ≠ "") (hb' : b' ≠ "") :
    wrapHandler handler bundle true injections (some b) =
      wrapHandler handler bundle true injections (some b')
    ∧ (wrapHandler handler bundle true injections (some b)).files =
        [(pathJoin [bundle, (posixParse handler).dir, newHandlerName ++ ".mjs"],
          String.intercalate "\n"
            (streamingLines (stripLeadingDot (posixParse handler).ext)
              (posixParse handler).name injections))]
    ∧ (wrapHandler handler bundle true injections (some b)).ret =
        pathJoin [(posixParse handler).dir, newHandlerName ++ "." ++ newHandlerFunction] := by
  have h1 : ¬ (injections.length = 0 ∧ bindFalsy (some b)) := fun hc => hb (eq_of_beq hc.2)
  have h2 : ¬ (injections.length = 0 ∧ bindFalsy (some b')) := fun hc => hb' (eq_of_beq hc.2)
  rw [wrapHandler_wraps _ _ _ _ _ h1, wrapHandler_wraps _ _ _ _ _ h2]
  exact ⟨rfl, rfl, rfl⟩

/-- Witness for C10: two distinct binding snippets, streaming, empty
injection list — identical results, and the wrapper is still written. -/
theorem streaming_drops_binding_witness :
    wrapHandler "src/index.handler" "dist" true [] (some "globalThis.a=1") =
      wrapHandler "src/index.handler" "dist" true [] (some "globalThis.a=2")
    ∧ (wrapHandler "src/index.handler" "dist" true [] (some "globalThis.a=1")).files =
        [(pathJoin ["dist", (posixParse "src/index.handler").dir, newHandlerName ++ ".mjs"],
          String.intercalate "\n"
            (streamingLines (stripLeadingDot (posixParse "src/index.handler").ext)
              (posixParse "src/index.handler").name []))]
    ∧ (wrapHandler "src/index.handler" "dist" true [] (some "globalThis.a=1")).ret =
        pathJoin [(posixParse "src/index.handler").dir, newHandlerName ++ "." ++ newHandlerFunction] :=
  streaming_drops_binding "src/index.handler" "dist" [] "globalThis.a=1" "globalThis.a=2"
    (by decide) (by decide)

/-- C1 counterexample: `listB` is the same file set as `listA` (a
permutation: same relative paths, same bytes), yet packaging under the two
iteration orders — and at two different wall-clock instants — produces
different archive bytes, because the archiver emits entries in glob scan
order and the code never canonicalizes that order. -/
theorem zip_iteration_order_counterexample :
    listA.Perm listB
    ∧ zipSerialize (zipBundleFolder listA 0) ≠ zipSerialize (zipBundleFolder listB 999) := by
  decide

/-- C1 amended: packaging a directory whose glob scan yields a fixed entry
order is independent of wall-clock time — the archives are identical, every
entry's modification time is the pinned epoch instant `new Date(0)`, and the
digest (for any hash function of the archive bytes) is identical across the
two runs. -/
theorem zip_deterministic_fixed_order (listing : List FileEntry) (now1 now2 : Nat)
    (sha256hex : List Nat → String) :
    zipBundleFolder listing now1 = zipBundleFolder listing now2
    ∧ (∀ e ∈ zipBundleFolder listing now1, e.mtime = epochDate)
    ∧ calculateHash sha256hex (zipSerialize (zipBundleFolder listing now1)) =
        calculateHash sha256hex (zipSerialize (zipBundleFolder listing now2)) := by
  refine ⟨rfl, ?_, rfl⟩
  intro e he
  simp only [zipBundleFolder, archiverGlob, List.mem_map] at he
  obtain ⟨a, -, rfl⟩ := he
  rfl

/-- Witness for C1 amended: the concrete listing `listA` at wall clocks 3
and 5 with a concrete digest function. -/
theorem zip_deterministic_fixed_order_witness :
    zipBundleFolder listA 3 = zipBundleFolder listA 5
    ∧ (∀ e ∈ zipBundleFolder listA 3, e.mtime = epochDate)
    ∧ calculateHash (fun _ => "d1") (zipSerialize (zipBundleFolder listA 3)) =
        calculateHash (fun _ => "d1") (zipSerialize (zipBundleFolder listA 5)) :=
  zip_deterministic_fixed_order listA 3 5 (fun _ => "d1")

/-- C6 counterexample: the bucket object key carries an `assets/` prefix, so
it is not exactly `<logicalName>-code-<digest>.zip`. -/
theorem bucket_key_counterexample :
    (createBucketObject "MyFn" "0abc" "bootstrap-bucket" "code.zip").1.key ≠
      "MyFn-code-0abc.zip" := by decide

/-- C6 amended: for every logical name and digest, the artifact is uploaded
under the key `assets/<logicalName>-code-<digest>.zip`, into the resolved
bootstrap bucket, sourced from the archive path. -/
theorem createBucketObject_key (name bundleHash bucket zipPath : String) :
    (createBucketObject name bundleHash bucket zipPath).1.key =
      "assets/" ++ name ++ "-code-" ++ bundleHash ++ ".zip"
    ∧ (createBucketObject name bundleHash bucket zipPath).1.bucket = bucket
    ∧ (createBucketObject name bundleHash bucket zipPath).1.sourcePath = zipPath :=
  ⟨rfl, rfl, rfl⟩

/-- C7: in the constructor's dataflow graph, hashing depends on archiving and
publishing depends on hashing (those orderings hold), but the packaging step
`zipPath` depends only on `bundle` — its direct dependency list is exactly
`[bundle]` — and has NO dependency, direct or transitive, on the
handler-wrapping step's output `newHandler`.  Nothing orders wrapping before
archiving, so the archive can be produced before the wrapper module is
written, contradicting the claimed strict forward order (the wrapper is
needed inside the archive: the deployed handler reference points at it). -/
theorem pipeline_ordering_deps :
    dependsOn .bundleHash .zipPath = true
    ∧ dependsOn .file .bundleHash = true
    ∧ dependsOn .fn .file = true
    ∧ directDeps .zipPath = [.bundle]
    ∧ dependsOn .zipPath .newHandler = false := by decide

/-- C8: the compute resource is created with the inline no-op placeholder
body and the non-code configuration (handler, role, runtime, timeout, memory
size, environment, architectures); its creation depends on neither the
published bucket object nor the digest; the code-update step depends on the
created resource (so it is issued only after creation resolves) and consumes
the resource's name and initial lastModified marker together with the
published object's bucket and key. -/
theorem placeholder_create_then_update (description : Option String)
    (newHandler roleArn runtime : String) (timeoutSeconds memoryMBs : Nat)
    (environment : List (String × String)) (architectures : List String)
    (fnRawName fnRawLastModified fileBucket fileKey region : String) :
    (createFunction description newHandler roleArn runtime timeoutSeconds memoryMBs
        environment architectures).code = placeholderCode
    ∧ placeholderCode = "exports.handler = () => \x7b\x7d"
    ∧ (createFunction description newHandler roleArn runtime timeoutSeconds memoryMBs
        environment architectures).handler = newHandler
    ∧ (createFunction description newHandler roleArn runtime timeoutSeconds memoryMBs
        environment architectures).role = roleArn
    ∧ (createFunction description newHandler roleArn runtime timeoutSeconds memoryMBs
        environment architectures).runtime = runtime
    ∧ (createFunction description newHandler roleArn runtime timeoutSeconds memoryMBs
        environment architectures).timeout = timeoutSeconds
    ∧ (createFunction description newHandler roleArn runtime timeoutSeconds memoryMBs
        environment architectures).memorySize = memoryMBs
    ∧ (createFunction description newHandler roleArn runtime timeoutSeconds memoryMBs
        environment architectures).environment = environment
    ∧ (createFunction description newHandler roleArn runtime timeoutSeconds memoryMBs
        environment architectures).architectures = architectures
    ∧ dependsOn .fnRaw .file = false
    ∧ dependsOn .fnRaw .bundleHash = false
    ∧ dependsOn .fn .fnRaw = true
    ∧ (updateFunctionCode fnRawName fnRawLastModified fileBucket fileKey region).functionName = fnRawName
    ∧ (updateFunctionCode fnRawName fnRawLastModified fileBucket fileKey region).functionLastModified = fnRawLastModified
    ∧ (updateFunctionCode fnRawName fnRawLastModified fileBucket fileKey region).s3Bucket = fileBucket
    ∧ (updateFunctionCode fnRawName fnRawLastModified fileBucket fileKey region).s3Key = fileKey :=
  ⟨rfl, rfl, rfl, rfl, rfl, rfl, rfl, rfl, rfl,
   by decide, by decide, by decide, rfl, rfl, rfl, rfl⟩

/-- C9: for every function name, digest, bucket and archive path, the bucket
object holding the code artifact is created with `retainOnDelete: true`, so
destroying the owning logical resource does not delete the stored object. -/
theorem bucketObject_retainOnDelete (name bundleHash bucket zipPath : String) :
    (createBucketObject name bundleHash bucket zipPath).2.retainOnDelete = true := rfl

end Ion
